import Mathlib

/-!
Verification of the steam-shame library analysis engine (src/app.py and
src/steam-shame/app.py) against its natural-language specification.

The Python code is shallowly embedded: dict-shaped records become
structures (absent numeric fields default to 0, matching the pervasive
use of dict get with default 0), Python floats become exact rationals,
Python round to one decimal becomes rounding of ten times the value to
the nearest integer, and Python's stable sorted builtin is modelled with
Mathlib's insertion sort, which is also stable.  Calls to the global
pseudo-random generator (random.sample) are modelled by an explicit
sampling-function parameter; the predicate ValidSample captures the
guarantees any outcome of random.sample provides.  Network fetches are
modelled by an explicit fetch oracle.
-/

namespace SteamShame

/-- One owned game as returned by the provider.  Python reads these as
dicts; numeric fields absent from the dict default to zero, which we bake
into plain Nat fields.  The fields playtime_2weeks and rtime_last_played
carry the recency information; analyze_library in src/app.py never reads
them, but they are part of the input record. -/
structure Game where
  appid : Nat
  name : String
  playtime_forever : Nat
  playtime_2weeks : Nat
  rtime_last_played : Nat
deriving DecidableEq

/-- Entry of the never_played_sample output list: name and appid. -/
structure NamedRef where
  name : String
  appid : Nat
deriving DecidableEq

/-- Entry of the gave_up output list: name, playtime, appid. -/
structure PlayEntry where
  name : String
  playtime : Nat
  appid : Nat
deriving DecidableEq

/-- Entry of the top_10 output list: name, playtime, formatted playtime,
appid. -/
structure TopEntry where
  name : String
  playtime : Nat
  playtime_formatted : String
  appid : Nat
deriving DecidableEq

/-- The result dict of analyze_library (src/app.py, lines 201 to 216). -/
structure Stats where
  total_games : Nat
  never_played_count : Nat
  never_played_sample : List NamedRef
  under_hour_count : Nat
  under_two_hours_count : Nat
  actually_played_count : Nat
  gave_up : List PlayEntry
  gave_up_total : Nat
  total_minutes : Nat
  total_hours : ℚ
  top_10 : List TopEntry
  concentration : ℚ
  shame_score : ℚ
  verdict : String
deriving DecidableEq

/-- A sampling function stands for one possible behaviour of Python's
random.sample drawing k items from a population list. -/
def SampleFn : Type := List Game → Nat → List Game

/-- The guarantees every outcome of random.sample satisfies: the sample
has length min k n and draws only members of the population. -/
def ValidSample (samp : SampleFn) : Prop :=
  ∀ l k, (samp l k).length = min k l.length ∧ ∀ g, g ∈ samp l k → g ∈ l

/-- One concrete valid sampling outcome: take the first k items. -/
def takeSample : SampleFn := fun l k => l.take k

/-- Another concrete valid sampling outcome: take the last k items in
reverse order. -/
def revTakeSample : SampleFn := fun l k => l.reverse.take k

/-- Python round(x, 1) modelled on exact rationals: round ten times the
value to the nearest integer and divide by ten.  (Python rounds ties to
even on binary floats; no theorem below evaluates at a tie.) -/
def roundTo1 (q : ℚ) : ℚ := (round (q * 10) : ℤ) / 10

/-- Render a nonnegative rational rounded to one decimal, as Python
string formatting with one decimal place does. -/
def fmtTenths (q : ℚ) : String :=
  let t : ℤ := round (q * 10)
  toString (t / 10) ++ "." ++ toString (t % 10)

/-- format_playtime (src/app.py, lines 139 to 147). -/
def format_playtime (minutes : Nat) : String :=
  if minutes < 60 then toString minutes ++ "m"
  else
    let hours : ℚ := (minutes : ℚ) / 60
    if hours < 24 then fmtTenths hours ++ "h"
    else fmtTenths (hours / 24) ++ " days"

/-- Descending-playtime comparison used with key playtime_forever and
reverse True in the Python sorted calls. -/
def ptDescR (a b : Game) : Prop := b.playtime_forever ≤ a.playtime_forever

instance : DecidableRel ptDescR := fun a b =>
  inferInstanceAs (Decidable (b.playtime_forever ≤ a.playtime_forever))

/-- Python's sorted with key playtime_forever and reverse True: a stable
descending sort, modelled by stable insertion sort. -/
def sortByPlaytimeDesc (games : List Game) : List Game :=
  List.insertionSort ptDescR games

/-- The four playtime buckets of analyze_library (src/app.py, lines 159
to 162). -/
def never_played (games : List Game) : List Game :=
  games.filter (fun g => g.playtime_forever == 0)

/-- Games with playtime strictly between 0 and 60 minutes. -/
def under_hour (games : List Game) : List Game :=
  games.filter (fun g =>
    decide (0 < g.playtime_forever) && decide (g.playtime_forever < 60))

/-- Games with playtime in the interval from 60 inclusive to 120
exclusive. -/
def under_two_hours (games : List Game) : List Game :=
  games.filter (fun g =>
    decide (60 ≤ g.playtime_forever) && decide (g.playtime_forever < 120))

/-- Games with playtime at least 120 minutes. -/
def actually_played (games : List Game) : List Game :=
  games.filter (fun g => decide (120 ≤ g.playtime_forever))

/-- The unrounded shame score of src/app.py line 189: share of
never-played games as a percentage. -/
def raw_shame_score (games : List Game) : ℚ :=
  if 0 < games.length then
    ((never_played games).length : ℚ) / (games.length : ℚ) * 100
  else 0

/-- The verdict if-elif chain of src/app.py lines 192 to 199, as a
standalone function of the (unrounded) score. -/
def verdict_of_score (shame_score : ℚ) : String :=
  if shame_score > 70 then "You have a problem. Stop buying games."
  else if shame_score > 50 then "Steam sales have claimed another victim."
  else if shame_score > 30 then "Not bad, but you know you\x27ll never play those."
  else "Impressive restraint. Or new account."

/-- analyze_library (src/app.py, lines 150 to 216).  The samp parameter
stands for the ambient random.sample used for never_played_sample. -/
def analyze_library (samp : SampleFn) (games : List Game) : Option Stats :=
  if games.isEmpty then none
  else
    let total_games := games.length
    let np := never_played games
    let uh := under_hour games
    let u2 := under_two_hours games
    let ap := actually_played games
    let total_minutes : Nat := (games.map (fun g => g.playtime_forever)).sum
    let total_hours : ℚ := (total_minutes : ℚ) / 60
    let sorted_by_playtime := sortByPlaytimeDesc games
    let top_10 := sorted_by_playtime.take 10
    let all_gave_up := List.insertionSort ptDescR
      (games.filter (fun g =>
        decide (10 ≤ g.playtime_forever) && decide (g.playtime_forever < 60)))
    let gave_up_sample := all_gave_up.take 10
    let gave_up_total := all_gave_up.length
    let never_played_sample :=
      if np.isEmpty then [] else samp np (min 10 np.length)
    let top_5_minutes := ((sorted_by_playtime.take 5).map
      (fun g => g.playtime_forever)).sum
    let concentration : ℚ :=
      if 0 < total_minutes then (top_5_minutes : ℚ) / (total_minutes : ℚ) * 100
      else 0
    let shame_score : ℚ :=
      if 0 < total_games then ((np.length : ℚ) / (total_games : ℚ)) * 100
      else 0
    let verdict :=
      if shame_score > 70 then "You have a problem. Stop buying games."
      else if shame_score > 50 then "Steam sales have claimed another victim."
      else if shame_score > 30 then "Not bad, but you know you\x27ll never play those."
      else "Impressive restraint. Or new account."
    some {
      total_games := total_games
      never_played_count := np.length
      never_played_sample :=
        never_played_sample.map (fun g => { name := g.name, appid := g.appid })
      under_hour_count := uh.length
      under_two_hours_count := u2.length
      actually_played_count := ap.length
      gave_up := gave_up_sample.map (fun g =>
        { name := g.name, playtime := g.playtime_forever, appid := g.appid })
      gave_up_total := gave_up_total
      total_minutes := total_minutes
      total_hours := roundTo1 total_hours
      top_10 := top_10.map (fun g =>
        { name := g.name, playtime := g.playtime_forever,
          playtime_formatted := format_playtime g.playtime_forever,
          appid := g.appid })
      concentration := roundTo1 concentration
      shame_score := roundTo1 shame_score
      verdict := verdict
    }

/-- The verdict selection that claim and spec describe: same four canned
strings, but selected at the thresholds 55, 40 and 25.  This definition
follows the spec text and exists only to be compared with the code's
thresholds in analyze_library. -/
def verdict_spec (shame_score : ℚ) : String :=
  if shame_score > 55 then "You have a problem. Stop buying games."
  else if shame_score > 40 then "Steam sales have claimed another victim."
  else if shame_score > 25 then "Not bad, but you know you\x27ll never play those."
  else "Impressive restraint. Or new account."

/-- Erase the one randomly sampled field of the analyzer output; used to
state that everything else is deterministic. -/
def eraseSample (s : Stats) : Stats := { s with never_played_sample := [] }

/-- Store-page data for one app, as consumed by classify_game_genres:
the description strings of the genres list and of the categories list.
All other store fields are irrelevant to the claims. -/
structure StoreData where
  genres : List String
  categories : List String
deriving DecidableEq

/-- Python str.lower on the ASCII tag strings of the genre table,
modelled character by character. -/
def lowerStr (s : String) : String := String.mk (s.data.map Char.toLower)

/-- GENRE_CATEGORIES (src/app.py, lines 221 to 241): category key paired
with the list of matching tag names.  The label and emoji fields are
presentation data never read by classify_game_genres and are omitted. -/
def GENRE_CATEGORIES : List (String × List String) := [
  ("fps_shooter", ["FPS", "Shooter", "First-Person Shooter", "Third-Person Shooter"]),
  ("rpg", ["RPG", "JRPG", "Action RPG", "Turn-Based RPG", "CRPG", "Role-Playing"]),
  ("strategy", ["Strategy", "Real-Time Strategy", "Turn-Based Strategy", "Tower Defense", "RTS", "4X", "Grand Strategy"]),
  ("survival", ["Survival", "Survival Horror", "Crafting", "Base Building", "Open World Survival Craft"]),
  ("simulation", ["Simulation", "Life Sim", "Farming Sim", "Management", "City Builder", "Building"]),
  ("indie", ["Indie"]),
  ("action", ["Action", "Hack and Slash", "Beat \x27em up", "Action-Adventure"]),
  ("puzzle", ["Puzzle", "Logic", "Hidden Object"]),
  ("platformer", ["Platformer", "2D Platformer", "3D Platformer", "Precision Platformer"]),
  ("horror", ["Horror", "Psychological Horror", "Survival Horror"]),
  ("racing", ["Racing", "Driving", "Automobile Sim"]),
  ("sports", ["Sports", "Football", "Basketball", "Baseball", "Soccer", "Golf"]),
  ("sandbox", ["Sandbox", "Open World", "Exploration"]),
  ("roguelike", ["Roguelike", "Roguelite", "Roguevania", "Procedural Generation"]),
  ("multiplayer", ["Massively Multiplayer", "MMO", "MMORPG", "Co-op", "Multiplayer"]),
  ("vr", ["VR", "Virtual Reality", "VR Only", "VR Supported"]),
  ("casual", ["Casual", "Clicker", "Idle", "Card Game", "Board Game"]),
  ("visual_novel", ["Visual Novel", "Dating Sim", "Choose Your Own Adventure", "Interactive Fiction"]),
  ("fighting", ["Fighting", "Martial Arts"])]

/-- classify_game_genres (src/app.py, lines 244 to 257): a category key is
emitted when some name of its entry matches, case-insensitively, some
genre or category description of the store data.  Python collects the
keys in a set and returns list of that set; we return the keys in table
order, which has the same members and is likewise duplicate-free. -/
def classify_game_genres (store_data : StoreData) : List String :=
  let all_labels := store_data.genres ++ store_data.categories
  let lowered := all_labels.map lowerStr
  (GENRE_CATEGORIES.filter
    (fun c => c.2.any (fun n => lowered.contains (lowerStr n)))).map Prod.fst

/-- get_app_details_batch (src/app.py, lines 116 to 134).  The fetch
oracle stands for get_app_details: some data on success, none when the
single-item fetch failed (the Python also drops a falsy empty result the
same way it drops None, so the oracle folds that case into none).  The
Python result is a dict keyed by appid, so duplicate requested ids
collapse; its iteration order depends on completion order, which the
list order here abstracts. -/
def get_app_details_batch (fetch : Nat → Option StoreData) (appids : List Nat) :
    List (Nat × StoreData) :=
  appids.dedup.filterMap (fun aid => (fetch aid).map (fun d => (aid, d)))

/-- The unplayed pool drawn from in api_personality (src/app.py, line
637). -/
def personality_unplayed_pool (games : List Game) : List Game :=
  games.filter (fun g => g.playtime_forever == 0)

/-- The random unplayed sample of api_personality (src/app.py, line 640):
random.sample of the unplayed pool with k the minimum of 30 and the pool
size; samp stands for the ambient unseeded generator. -/
def personality_unplayed_sample (samp : SampleFn) (games : List Game) : List Game :=
  samp (personality_unplayed_pool games)
    (min 30 (personality_unplayed_pool games).length)

/-- One leaderboard entry of api_friends (src/app.py, lines 799 to 808),
built from the stats of one accepted friend. -/
structure LBEntry where
  steam_id : String
  name : String
  avatar : String
  shame_score : ℚ
  total_games : Nat
  never_played : Nat
  total_hours : ℚ
  is_user : Bool
deriving DecidableEq

/-- Descending-score comparison of the leaderboard sort (src/app.py, line
812). -/
def lbDescR (a b : LBEntry) : Prop := b.shame_score ≤ a.shame_score

instance : DecidableRel lbDescR := fun a b =>
  inferInstanceAs (Decidable (b.shame_score ≤ a.shame_score))

/-- Python's stable sort by shame_score with reverse True, modelled by
stable insertion sort. -/
def lb_sort (l : List LBEntry) : List LBEntry := List.insertionSort lbDescR l

/-- The rank-assignment loop of api_friends (src/app.py, lines 814 to
818): enumerate the sorted list, give each entry rank index plus one, and
record rank of a user entry in user_rank (initially None). -/
def rankLoop : Nat → Option Nat → List LBEntry →
    List (LBEntry × Nat) × Option Nat
  | _, acc, [] => ([], acc)
  | i, acc, e :: rest =>
    let acc2 := if e.is_user then some (i + 1) else acc
    let r := rankLoop (i + 1) acc2 rest
    ((e, i + 1) :: r.1, r.2)

/-- Sort plus rank assignment plus user-rank lookup of api_friends:
returns the ranked entries and the reported user_rank. -/
def api_friends_ranked (l : List LBEntry) : List (LBEntry × Nat) × Option Nat :=
  rankLoop 0 none (lb_sort l)

/-- Concrete sample inputs used by the counterexamples and witnesses
below. -/
def gameA : Game := { appid := 101, name := "Item A", playtime_forever := 0, playtime_2weeks := 0, rtime_last_played := 0 }

/-- Second sample game: 200 cumulative minutes. -/
def gameB : Game := { appid := 102, name := "Item B", playtime_forever := 200, playtime_2weeks := 0, rtime_last_played := 0 }

/-- A zero-playtime game that is recent: nonzero two-week playtime and a
recent last-played timestamp. -/
def recentGame : Game := { appid := 103, name := "Recent", playtime_forever := 0, playtime_2weeks := 45, rtime_last_played := 1760000000 }

/-- Ten games of which six are never played: unrounded score 60. -/
def demo10 : List Game :=
  [{ appid := 1, name := "U1", playtime_forever := 0, playtime_2weeks := 0, rtime_last_played := 0 },
   { appid := 2, name := "U2", playtime_forever := 0, playtime_2weeks := 0, rtime_last_played := 0 },
   { appid := 3, name := "U3", playtime_forever := 0, playtime_2weeks := 0, rtime_last_played := 0 },
   { appid := 4, name := "U4", playtime_forever := 0, playtime_2weeks := 0, rtime_last_played := 0 },
   { appid := 5, name := "U5", playtime_forever := 0, playtime_2weeks := 0, rtime_last_played := 0 },
   { appid := 6, name := "U6", playtime_forever := 0, playtime_2weeks := 0, rtime_last_played := 0 },
   { appid := 7, name := "P1", playtime_forever := 200, playtime_2weeks := 0, rtime_last_played := 0 },
   { appid := 8, name := "P2", playtime_forever := 200, playtime_2weeks := 0, rtime_last_played := 0 },
   { appid := 9, name := "P3", playtime_forever := 200, playtime_2weeks := 0, rtime_last_played := 0 },
   { appid := 10, name := "P4", playtime_forever := 200, playtime_2weeks := 0, rtime_last_played := 0 }]

/-- Thirty-one never-played games; a sample of thirty cannot contain them
all, so which games are selected depends on the generator state. -/
def demo31 : List Game :=
  (List.range 31).map (fun i =>
    { appid := i, name := "G", playtime_forever := 0, playtime_2weeks := 0, rtime_last_played := 0 })

/-- A fetch oracle for the batch scenario: ids up to 6 succeed, others
fail. -/
def exFetch : Nat → Option StoreData :=
  fun aid => if aid ≤ 6 then some { genres := [], categories := [] } else none

/-- Ten requested ids, of which exFetch fails exactly four. -/
def exIds : List Nat := [1, 2, 3, 4, 5, 6, 7, 8, 9, 10]

/-- The analyzer output on the one-game library consisting of gameA
alone (zero playtime): every derived field written out. -/
def demoStatsA : Stats :=
  { total_games := 1
    never_played_count := 1
    never_played_sample := [{ name := "Item A", appid := 101 }]
    under_hour_count := 0
    under_two_hours_count := 0
    actually_played_count := 0
    gave_up := []
    gave_up_total := 0
    total_minutes := 0
    total_hours := 0
    top_10 := [{ name := "Item A", playtime := 0, playtime_formatted := "0m", appid := 101 }]
    concentration := 0
    shame_score := 100
    verdict := "You have a problem. Stop buying games." }

/-- The analyzer output on the one-game library consisting of recentGame
alone. -/
def demoStatsRecent : Stats :=
  { total_games := 1
    never_played_count := 1
    never_played_sample := [{ name := "Recent", appid := 103 }]
    under_hour_count := 0
    under_two_hours_count := 0
    actually_played_count := 0
    gave_up := []
    gave_up_total := 0
    total_minutes := 0
    total_hours := 0
    top_10 := [{ name := "Recent", playtime := 0, playtime_formatted := "0m", appid := 103 }]
    concentration := 0
    shame_score := 100
    verdict := "You have a problem. Stop buying games." }

/-- A leaderboard of two accepted entries: the subject user with score 10
and one friend with score 50. -/
def demoUser : LBEntry := { steam_id := "u", name := "U", avatar := "", shame_score := 10, total_games := 10, never_played := 1, total_hours := 5, is_user := true }

/-- The friend entry of the demo leaderboard. -/
def demoFriend : LBEntry := { steam_id := "f", name := "F", avatar := "", shame_score := 50, total_games := 4, never_played := 2, total_hours := 3, is_user := false }

/-- The demo leaderboard input list. -/
def demoLB : List LBEntry := [demoUser, demoFriend]

/-! Helper lemmas shared by the claim theorems. -/

theorem valid_takeSample : ValidSample takeSample := by
  intro l k
  refine ⟨by simp [takeSample], ?_⟩
  intro g hg
  exact List.mem_of_mem_take hg

theorem valid_revTakeSample : ValidSample revTakeSample := by
  intro l k
  refine ⟨by simp [revTakeSample], ?_⟩
  intro g hg
  have h := List.mem_of_mem_take hg
  exact List.mem_reverse.mp h

theorem analyze_library_nil (samp : SampleFn) : analyze_library samp [] = none := rfl

theorem analyze_shame_eq (samp : SampleFn) (games : List Game) (h : games ≠ []) :
    (analyze_library samp games).map Stats.shame_score
      = some (roundTo1 (raw_shame_score games)) := by
  cases games with
  | nil => exact absurd rfl h
  | cons g gs => simp [analyze_library, raw_shame_score]

theorem analyze_verdict_eq (samp : SampleFn) (games : List Game) (h : games ≠ []) :
    (analyze_library samp games).map Stats.verdict
      = some (verdict_of_score (raw_shame_score games)) := by
  cases games with
  | nil => exact absurd rfl h
  | cons g gs => simp [analyze_library, raw_shame_score, verdict_of_score]

theorem analyze_counts_eq (samp : SampleFn) (games : List Game) (h : games ≠ []) :
    (analyze_library samp games).map (fun s =>
        (s.total_games, s.never_played_count, s.under_hour_count,
          s.under_two_hours_count, s.actually_played_count))
      = some (games.length, (never_played games).length, (under_hour games).length,
          (under_two_hours games).length, (actually_played games).length) := by
  cases games with
  | nil => exact absurd rfl h
  | cons g gs => simp [analyze_library]

theorem analyze_sample_eq (samp : SampleFn) (games : List Game) (h : games ≠ []) :
    (analyze_library samp games).map Stats.never_played_sample
      = some ((if (never_played games).isEmpty then []
          else samp (never_played games) (min 10 (never_played games).length)).map
            (fun g => { name := g.name, appid := g.appid })) := by
  cases games with
  | nil => exact absurd rfl h
  | cons g gs => simp [analyze_library]

theorem bucket_sum (games : List Game) :
    (never_played games).length + (under_hour games).length +
      (under_two_hours games).length + (actually_played games).length
      = games.length := by
  induction games with
  | nil => rfl
  | cons g gs ih =>
    simp only [never_played, under_hour, under_two_hours, actually_played,
      List.filter_cons, beq_iff_eq, Bool.and_eq_true, decide_eq_true_eq] at ih ⊢
    split_ifs <;> simp only [List.length_cons] <;> omega

theorem raw_shame_score_bounds (games : List Game) :
    0 ≤ raw_shame_score games ∧ raw_shame_score games ≤ 100 := by
  unfold raw_shame_score
  split
  case isTrue hpos =>
    have hle : (never_played games).length ≤ games.length :=
      List.length_filter_le _ _
    have hb : (0 : ℚ) < (games.length : ℚ) := by exact_mod_cast hpos
    constructor
    · positivity
    · have h1 : ((never_played games).length : ℚ) / (games.length : ℚ) ≤ 1 := by
        rw [div_le_one hb]
        exact_mod_cast hle
      nlinarith
  case isFalse _ => norm_num

theorem roundTo1_bounds {q : ℚ} (h0 : 0 ≤ q) (h1 : q ≤ 100) :
    0 ≤ roundTo1 q ∧ roundTo1 q ≤ 100 := by
  unfold roundTo1
  have hr : (0 : ℤ) ≤ round (q * 10) := by
    rw [round_eq]
    apply Int.floor_nonneg.mpr
    linarith
  have hr2 : round (q * 10) ≤ 1000 := by
    rw [round_eq]
    have hlt : ⌊q * 10 + 1 / 2⌋ < 1001 := by
      rw [Int.floor_lt]
      push_cast
      linarith
    omega
  constructor
  · apply div_nonneg _ (by norm_num)
    exact_mod_cast hr
  · rw [div_le_iff₀ (by norm_num : (0 : ℚ) < 10)]
    calc ((round (q * 10) : ℤ) : ℚ) ≤ 1000 := by exact_mod_cast hr2
      _ = 100 * 10 := by norm_num

theorem analyze_gameA : analyze_library takeSample [gameA] = some demoStatsA := by
  simp only [analyze_library, demoStatsA, gameA, takeSample, sortByPlaytimeDesc,
    never_played, under_hour, under_two_hours, actually_played, roundTo1,
    format_playtime, fmtTenths, List.insertionSort, List.filter_cons, List.filter_nil]
  norm_num [round_eq]
  rfl

theorem analyze_recentGame :
    analyze_library takeSample [recentGame] = some demoStatsRecent := by
  simp only [analyze_library, demoStatsRecent, recentGame, takeSample, sortByPlaytimeDesc,
    never_played, under_hour, under_two_hours, actually_played, roundTo1,
    format_playtime, fmtTenths, List.insertionSort, List.filter_cons, List.filter_nil]
  norm_num [round_eq]
  rfl

instance : IsTotal LBEntry lbDescR :=
  ⟨fun a b => le_total b.shame_score a.shame_score⟩

instance : IsTrans LBEntry lbDescR :=
  ⟨fun _ _ _ hab hbc => le_trans hbc hab⟩

theorem rankLoop_ranks (l : List LBEntry) :
    ∀ i acc, (rankLoop i acc l).1.map Prod.snd = List.range' (i + 1) l.length := by
  induction l with
  | nil => intro i acc; rfl
  | cons e rest ih =>
    intro i acc
    simp only [rankLoop, List.map_cons, List.length_cons, List.range'_succ]
    exact congrArg (List.cons (i + 1)) (ih (i + 1) _)

theorem rankLoop_acc_no_user (l : List LBEntry) :
    ∀ i acc, (∀ e ∈ l, e.is_user = false) → (rankLoop i acc l).2 = acc := by
  induction l with
  | nil => intro i acc _; rfl
  | cons e rest ih =>
    intro i acc h
    have he : e.is_user = false := h e (by simp)
    simp only [rankLoop, he, if_neg Bool.false_ne_true]
    exact ih (i + 1) acc (fun x hx => h x (by simp [hx]))

theorem rankLoop_user_rank (A : List LBEntry) (e : LBEntry) (B : List LBEntry)
    (he : e.is_user = true) (hA : ∀ x ∈ A, x.is_user = false)
    (hB : ∀ x ∈ B, x.is_user = false) :
    ∀ i acc, (rankLoop i acc (A ++ e :: B)).2 = some (i + A.length + 1) := by
  induction A with
  | nil =>
    intro i acc
    simp [rankLoop, he, rankLoop_acc_no_user B (i + 1) (some (i + 1)) hB]
  | cons a A' ih =>
    intro i acc
    have ha : a.is_user = false := hA a (by simp)
    simp only [List.cons_append, rankLoop, ha, if_neg Bool.false_ne_true,
      List.length_cons, List.append_eq]
    rw [ih (fun x hx => hA x (by simp [hx])) (i + 1) acc]
    congr 1
    omega

/-! The claim theorems. -/

/-- Claim C1, counterexample: on the two-item library of the claimed
scenario (one zero-playtime non-recent game, one game with 200 minutes)
analyze_library returns a shame score of exactly 50.0, not approximately
33.3; the code neither weights abandoned games nor applies a volume
multiplier. -/
theorem scenario1_score_is_50 :
    (analyze_library takeSample [gameA, gameB]).map Stats.shame_score = some 50
      ∧ (50 : ℚ) ≠ 333 / 10 := by
  constructor
  · simp only [analyze_library, never_played, takeSample, roundTo1, gameA, gameB,
      List.filter_cons, List.filter_nil]
    norm_num [round_eq]
  · norm_num

/-- Claim C1 (amended): the shame score of analyze_library on a non-empty
game list is the never-played share of the library as a percentage,
rounded to one decimal: no abandoned weighting, no volume multiplier and
no cap below 100 are applied. -/
theorem shame_score_formula (samp : SampleFn) (games : List Game) (h : games ≠ []) :
    (analyze_library samp games).map Stats.shame_score
      = some (roundTo1 (raw_shame_score games)) :=
  analyze_shame_eq samp games h

/-- Witness for shame_score_formula at the concrete scenario library. -/
theorem shame_score_formula_witness :
    (analyze_library takeSample [gameA, gameB]).map Stats.shame_score
      = some (roundTo1 (raw_shame_score [gameA, gameB])) :=
  shame_score_formula takeSample [gameA, gameB] (by decide)

/-- Claim C2, counterexample: a library whose single game has zero
playtime scores exactly 100, which exceeds the claimed cap of 99.9. -/
theorem shame_score_reaches_100 :
    (analyze_library takeSample [gameA]).map Stats.shame_score = some 100
      ∧ ¬ ((100 : ℚ) ≤ 999 / 10) := by
  constructor
  · simp only [analyze_library, never_played, takeSample, roundTo1, gameA,
      List.filter_cons, List.filter_nil]
    norm_num [round_eq]
  · norm_num

/-- Claim C2 (amended): for every non-empty input list the shame score of
analyze_library lies between 0 and 100 inclusive; the upper bound 100 is
attained (see shame_score_reaches_100), so the score is not strictly
below 100. -/
theorem shame_score_range (samp : SampleFn) (games : List Game) (s : Stats)
    (h : analyze_library samp games = some s) :
    0 ≤ s.shame_score ∧ s.shame_score ≤ 100 := by
  have hne : games ≠ [] := by
    intro hnil
    rw [hnil, analyze_library_nil] at h
    exact Option.noConfusion h
  have hmap := analyze_shame_eq samp games hne
  rw [h] at hmap
  have hs : s.shame_score = roundTo1 (raw_shame_score games) :=
    Option.some.inj hmap
  rw [hs]
  obtain ⟨h0, h1⟩ := raw_shame_score_bounds games
  exact roundTo1_bounds h0 h1

/-- Witness for shame_score_range at the one-game library. -/
theorem shame_score_range_witness :
    0 ≤ demoStatsA.shame_score ∧ demoStatsA.shame_score ≤ 100 :=
  shame_score_range takeSample [gameA] demoStatsA analyze_gameA

/-- Claim C3, counterexample: a zero-playtime game that is recent (45
minutes of two-week playtime, recent last-played timestamp) does appear
in the never_played_sample display list — takeSample is a possible
outcome of random.sample, and on a single-element pool every outcome
returns that element — while also being counted; the code has no recency
exclusion at all. -/
theorem recent_unplayed_displayed :
    ValidSample takeSample ∧
      (analyze_library takeSample [recentGame]).map
        (fun s => (s.never_played_sample, s.never_played_count))
        = some ([{ name := "Recent", appid := 103 }], 1) :=
  ⟨valid_takeSample, by decide⟩

/-- Claim C3 (amended): analyze_library applies no recency filter: every
zero-playtime game, recent or not, belongs to the never-played pool, is
counted in never_played_count, and the display sample is drawn from that
full pool, so recent zero-playtime games are eligible to appear in it. -/
theorem no_recency_filter (samp : SampleFn) (games : List Game) (s : Stats)
    (h : analyze_library samp games = some s) (hv : ValidSample samp) :
    s.never_played_count = (never_played games).length ∧
    (∀ g ∈ games, g.playtime_forever = 0 → g ∈ never_played games) ∧
    (∀ r ∈ s.never_played_sample, ∃ g, g ∈ never_played games ∧
      r = { name := g.name, appid := g.appid }) := by
  have hne : games ≠ [] := by
    intro hnil
    rw [hnil, analyze_library_nil] at h
    exact Option.noConfusion h
  have hcounts := analyze_counts_eq samp games hne
  have hsample := analyze_sample_eq samp games hne
  rw [h] at hcounts hsample
  refine ⟨?_, ?_, ?_⟩
  · have := Option.some.inj hcounts
    exact congrArg (fun p => p.2.1) this
  · intro g hg hpt
    simp only [never_played, List.mem_filter, beq_iff_eq]
    exact ⟨hg, hpt⟩
  · intro r hr
    have hs := Option.some.inj hsample
    rw [hs] at hr
    rcases List.mem_map.mp hr with ⟨g, hg, hgr⟩
    refine ⟨g, ?_, hgr.symm⟩
    by_cases hemp : (never_played games).isEmpty
    · rw [if_pos hemp] at hg
      exact absurd hg (List.not_mem_nil g)
    · rw [if_neg hemp] at hg
      exact (hv (never_played games) (min 10 (never_played games).length)).2 g hg

/-- Witness for no_recency_filter at the single recent zero-playtime
game. -/
theorem no_recency_filter_witness :
    demoStatsRecent.never_played_count = (never_played [recentGame]).length ∧
    (∀ g ∈ [recentGame], g.playtime_forever = 0 → g ∈ never_played [recentGame]) ∧
    (∀ r ∈ demoStatsRecent.never_played_sample, ∃ g, g ∈ never_played [recentGame] ∧
      r = { name := g.name, appid := g.appid }) :=
  no_recency_filter takeSample [recentGame] demoStatsRecent analyze_recentGame
    valid_takeSample

/-- Claim C4: the four playtime categories of analyze_library (zero
minutes, under an hour, one to two hours, two hours and up) are pairwise
disjoint, their counts sum to total_games, and the empty list yields the
none sentinel rather than a zero-score stats object. -/
theorem categories_partition (samp : SampleFn) :
    analyze_library samp [] = none ∧
    ∀ games s, analyze_library samp games = some s →
      (s.never_played_count + s.under_hour_count + s.under_two_hours_count
          + s.actually_played_count = s.total_games) ∧
      ∀ g : Game,
        ¬ (g ∈ never_played games ∧ g ∈ under_hour games) ∧
        ¬ (g ∈ never_played games ∧ g ∈ under_two_hours games) ∧
        ¬ (g ∈ never_played games ∧ g ∈ actually_played games) ∧
        ¬ (g ∈ under_hour games ∧ g ∈ under_two_hours games) ∧
        ¬ (g ∈ under_hour games ∧ g ∈ actually_played games) ∧
        ¬ (g ∈ under_two_hours games ∧ g ∈ actually_played games) := by
  refine ⟨analyze_library_nil samp, ?_⟩
  intro games s h
  have hne : games ≠ [] := by
    intro hnil
    rw [hnil, analyze_library_nil] at h
    exact Option.noConfusion h
  have hcounts := analyze_counts_eq samp games hne
  rw [h] at hcounts
  have hc := Option.some.inj hcounts
  constructor
  · have h1 : s.total_games = games.length := congrArg (fun p => p.1) hc
    have h2 : s.never_played_count = (never_played games).length :=
      congrArg (fun p => p.2.1) hc
    have h3 : s.under_hour_count = (under_hour games).length :=
      congrArg (fun p => p.2.2.1) hc
    have h4 : s.under_two_hours_count = (under_two_hours games).length :=
      congrArg (fun p => p.2.2.2.1) hc
    have h5 : s.actually_played_count = (actually_played games).length :=
      congrArg (fun p => p.2.2.2.2) hc
    rw [h1, h2, h3, h4, h5]
    exact bucket_sum games
  · intro g
    refine ⟨?_, ?_, ?_, ?_, ?_, ?_⟩ <;>
    · rintro ⟨ha, hb⟩
      simp only [never_played, under_hour, under_two_hours, actually_played,
        List.mem_filter, beq_iff_eq, Bool.and_eq_true, decide_eq_true_eq] at ha hb
      omega

/-- Witness for categories_partition at the one-game library. -/
theorem categories_partition_witness :
    demoStatsA.never_played_count + demoStatsA.under_hour_count
        + demoStatsA.under_two_hours_count + demoStatsA.actually_played_count
      = demoStatsA.total_games :=
  (((categories_partition takeSample).2 [gameA] demoStatsA analyze_gameA).1)

/-- Claim C5, counterexample: on a ten-game library with six never
played the score is 60.0; the code's verdict is the second band string
(its thresholds are 70, 50, 30), while the claimed threshold table (55,
40, 25) would select the top band string. -/
theorem verdict_not_spec_thresholds :
    (analyze_library takeSample demo10).map Stats.verdict
      = some "Steam sales have claimed another victim." ∧
    (analyze_library takeSample demo10).map (fun s => verdict_spec s.shame_score)
      = some "You have a problem. Stop buying games." ∧
    ("Steam sales have claimed another victim." : String)
      ≠ "You have a problem. Stop buying games." := by
  refine ⟨?_, ?_, by decide⟩
  · simp only [analyze_library, never_played, takeSample, demo10,
      List.filter_cons, List.filter_nil]
    norm_num
  · simp only [analyze_library, never_played, takeSample, demo10, verdict_spec,
      roundTo1, List.filter_cons, List.filter_nil]
    norm_num [round_eq]

/-- Claim C5 (amended): the verdict returned by analyze_library is one of
the four canned strings selected, as a function of the computed
(unrounded) shame score alone, by the thresholds score greater than 70,
greater than 50, greater than 30, and otherwise. -/
theorem verdict_bands (samp : SampleFn) (games : List Game) (s : Stats)
    (h : analyze_library samp games = some s) :
    s.verdict = verdict_of_score (raw_shame_score games) := by
  have hne : games ≠ [] := by
    intro hnil
    rw [hnil, analyze_library_nil] at h
    exact Option.noConfusion h
  have hmap := analyze_verdict_eq samp games hne
  rw [h] at hmap
  exact Option.some.inj hmap

/-- Witness for verdict_bands at the one-game library. -/
theorem verdict_bands_witness :
    demoStatsA.verdict = verdict_of_score (raw_shame_score [gameA]) :=
  verdict_bands takeSample [gameA] demoStatsA analyze_gameA

/-- Claim C6, counterexample: a tag that matches no entry of the
canonical bucket table is dropped, not passed through as its own
lowercase bucket key — classifying store data whose only genre tag is
Zombies yields the empty list, and the key zombies is not in the
output. -/
theorem unknown_tag_dropped :
    classify_game_genres { genres := ["Zombies"], categories := [] } = [] ∧
    "zombies" ∉ classify_game_genres { genres := ["Zombies"], categories := [] } := by
  decide

/-- Claim C6 (amended): the classifier is closed, not open: every key it
outputs is one of the fixed canonical bucket keys of GENRE_CATEGORIES
(unrecognized tags are silently dropped), and the output list is
deduplicated. -/
theorem classify_closed_vocab (sd : StoreData) :
    (∀ k, k ∈ classify_game_genres sd → k ∈ GENRE_CATEGORIES.map Prod.fst) ∧
    (classify_game_genres sd).Nodup := by
  constructor
  · intro k hk
    simp only [classify_game_genres, List.mem_map] at hk
    rcases hk with ⟨c, hc, hck⟩
    exact List.mem_map.mpr ⟨c, List.mem_of_mem_filter hc, hck⟩
  · have hsub : (classify_game_genres sd).Sublist (GENRE_CATEGORIES.map Prod.fst) :=
      (List.filter_sublist GENRE_CATEGORIES).map Prod.fst
    exact List.Nodup.sublist hsub (by decide)

/-- Witness for classify_closed_vocab: the key emitted for the tag Action
is one of the fixed canonical keys, and that output is duplicate-free. -/
theorem classify_closed_vocab_witness :
    "action" ∈ GENRE_CATEGORIES.map Prod.fst ∧
    (classify_game_genres { genres := ["Action"], categories := [] }).Nodup :=
  ⟨(classify_closed_vocab { genres := ["Action"], categories := [] }).1 "action" (by decide),
   (classify_closed_vocab { genres := ["Action"], categories := [] }).2⟩

/-- Claim C7, counterexample: the unplayed sample of the personality
endpoint is drawn with the ambient unseeded generator, so it is not
reproducible: takeSample and revTakeSample are both possible outcomes of
random.sample (they satisfy ValidSample), yet on a fixed 31-game library
they select different items for the same identity and data. -/
theorem personality_sample_rng_dependent :
    ValidSample takeSample ∧ ValidSample revTakeSample ∧
    personality_unplayed_sample takeSample demo31
      ≠ personality_unplayed_sample revTakeSample demo31 :=
  ⟨valid_takeSample, valid_revTakeSample, by decide⟩

/-- Claim C7 (amended): since the generator is never seeded from the
subject identity, the only guarantee across evaluations is structural:
any random.sample outcome yields min 30 n items all drawn from the
unplayed pool; which items are selected depends on the generator state
(see personality_sample_rng_dependent). -/
theorem personality_sample_guarantees (samp : SampleFn) (games : List Game)
    (hv : ValidSample samp) :
    (personality_unplayed_sample samp games).length
        = min 30 (personality_unplayed_pool games).length ∧
    ∀ g ∈ personality_unplayed_sample samp games,
      g ∈ personality_unplayed_pool games := by
  have h := hv (personality_unplayed_pool games)
    (min 30 (personality_unplayed_pool games).length)
  refine ⟨?_, h.2⟩
  rw [personality_unplayed_sample, h.1]
  omega

/-- Witness for personality_sample_guarantees at the 31-game library with
the takeSample outcome. -/
theorem personality_sample_guarantees_witness :
    (personality_unplayed_sample takeSample demo31).length
        = min 30 (personality_unplayed_pool demo31).length ∧
    ∀ g ∈ personality_unplayed_sample takeSample demo31,
      g ∈ personality_unplayed_pool demo31 :=
  personality_sample_guarantees takeSample demo31 valid_takeSample

/-- Claim C8: the batch metadata fetch returns exactly the requested ids
whose individual fetch succeeded — an entry (aid, d) is in the result iff
aid was requested and its fetch returned d, and a requested id is a key
of the result iff its fetch succeeded — failures are dropped silently;
in the concrete 10-id scenario with 4 failures the result has exactly 6
entries. -/
theorem batch_partial_success :
    (∀ (fetch : Nat → Option StoreData) (appids : List Nat) (aid : Nat) (d : StoreData),
      (aid, d) ∈ get_app_details_batch fetch appids
        ↔ aid ∈ appids ∧ fetch aid = some d) ∧
    (∀ (fetch : Nat → Option StoreData) (appids : List Nat) (aid : Nat),
      aid ∈ (get_app_details_batch fetch appids).map Prod.fst
        ↔ aid ∈ appids ∧ (fetch aid).isSome) ∧
    (get_app_details_batch exFetch exIds).length = 6 := by
  have hmem : ∀ (fetch : Nat → Option StoreData) (appids : List Nat) (aid : Nat)
      (d : StoreData), (aid, d) ∈ get_app_details_batch fetch appids
        ↔ aid ∈ appids ∧ fetch aid = some d := by
    intro fetch appids aid d
    simp only [get_app_details_batch, List.mem_filterMap, List.mem_dedup,
      Option.map_eq_some', Prod.mk.injEq]
    constructor
    · rintro ⟨a, ha, d0, hd0, rfl, rfl⟩
      exact ⟨ha, hd0⟩
    · rintro ⟨ha, hd⟩
      exact ⟨aid, ha, d, hd, rfl, rfl⟩
  refine ⟨hmem, ?_, by decide⟩
  intro fetch appids aid
  constructor
  · intro h
    rcases List.mem_map.mp h with ⟨⟨a, d⟩, hpd, hfst⟩
    rcases (hmem fetch appids a d).mp hpd with ⟨ha, hd⟩
    have haid : a = aid := hfst
    subst haid
    exact ⟨ha, by rw [hd]; rfl⟩
  · rintro ⟨ha, hd⟩
    rcases Option.isSome_iff_exists.mp hd with ⟨d, hd2⟩
    exact List.mem_map.mpr ⟨(aid, d), (hmem fetch appids aid d).mpr ⟨ha, hd2⟩, rfl⟩

/-- Claim C9: after sorting descending by shame score, the assigned ranks
are the contiguous sequence 1..K with no gaps or duplicates; the sorted
list really is descending; the reported user_rank is position plus one of
the subject's entry in the sorted list when the subject has exactly one
accepted entry, and none when no accepted entry is the subject's. -/
theorem leaderboard_ranks (l : List LBEntry) :
    ((api_friends_ranked l).1.map Prod.snd = List.range' 1 l.length) ∧
    List.Sorted lbDescR (lb_sort l) ∧
    (∀ A e B, lb_sort l = A ++ e :: B → e.is_user = true →
      (∀ x ∈ A, x.is_user = false) → (∀ x ∈ B, x.is_user = false) →
      (api_friends_ranked l).2 = some (A.length + 1)) ∧
    ((∀ x ∈ lb_sort l, x.is_user = false) → (api_friends_ranked l).2 = none) := by
  refine ⟨?_, ?_, ?_, ?_⟩
  · rw [api_friends_ranked, rankLoop_ranks (lb_sort l) 0 none, lb_sort,
      List.length_insertionSort]
  · exact List.sorted_insertionSort lbDescR l
  · intro A e B hdecomp he hA hB
    rw [api_friends_ranked, hdecomp, rankLoop_user_rank A e B he hA hB 0 none]
    congr 1
    omega
  · intro hnone
    exact rankLoop_acc_no_user (lb_sort l) 0 none hnone

/-- Witness for leaderboard_ranks: in the two-entry demo leaderboard the
friend with score 50 sorts first and the subject's reported rank is 2. -/
theorem leaderboard_ranks_witness :
    (api_friends_ranked demoLB).2 = some 2 :=
  (leaderboard_ranks demoLB).2.2.1 [demoFriend] demoUser [] (by decide) (by decide)
    (by decide) (by decide)

/-- Claim C10: every output field of analyze_library except the randomly
drawn never_played_sample is a deterministic function of the input list:
two runs differing only in the sampling outcome agree after erasing that
one field. -/
theorem analyze_deterministic_except_sample (samp1 samp2 : SampleFn)
    (games : List Game) :
    (analyze_library samp1 games).map eraseSample
      = (analyze_library samp2 games).map eraseSample := by
  cases games <;> rfl

end SteamShame
